import Mathlib

/-!
Verification of the webhook event-handler core of the repository
(`server/src/routes/event_handler.rs`).

The handler composition `handle_github_event` and the router construction
`router` are embedded directly from the source file.  The `extractors`
module (signature verification and body parsing, i.e. the `GitHubEvent`
extractor) and the `authentication` module are repository code that is not
part of the provided source tree; they are modelled from the specification
(spec sections 4.1, 4.3, 4.4), with the HMAC-SHA256 primitive, the JSON
parser and the platform exchange abstracted as function parameters.

Machine integers do not occur: installation ids are modelled as `Nat`
(the source uses an opaque numeric `InstallationId`), and bytes are `Nat`
values below 256, the bound carried as a hypothesis where it matters.
-/

namespace WildGitYonder

/-- Full installation representation (octocrab `Installation`): contains at
least the numeric `id`; the remaining fields are abstracted as an opaque
association list. -/
structure Installation where
  id : Nat
  node_id : String
  extra : List (String × String)
deriving DecidableEq, Repr

/-- Minimal installation representation (octocrab `EventInstallationId`):
exactly the numeric `id` and the `node_id`. -/
structure EventInstallationId where
  id : Nat
  node_id : String
deriving DecidableEq, Repr

/-- The two representation variants of the `installation` reference in an
event payload (octocrab `EventInstallation`). -/
inductive EventInstallation where
  | Full : Installation → EventInstallation
  | Minimal : EventInstallationId → EventInstallation
deriving DecidableEq, Repr

/-- The deserialized webhook payload: an optional installation reference,
the event-kind discriminator taken from the `X-GitHub-Event` request
header, and the remaining body content, opaque to the handler. -/
structure EventEnvelope where
  installation : Option EventInstallation
  kind : String
  payload : List (String × String)
deriving DecidableEq, Repr

/-- An HTTP response: status code and body. -/
structure Response where
  status : Nat
  body : String
deriving DecidableEq, Repr

/-- Observable calls made while handling one request: the arguments of
every `for_installation` call, the arguments of every call to the
event-processing collaborator `handle_event`, and the error log entries
(rendered cause, message). -/
structure Trace (α : Type) where
  forInstallationCalls : List Nat
  handleEventCalls : List (α × EventEnvelope)
  logs : List (String × String)
deriving DecidableEq, Repr

/-- Extraction of the installation id from the optional installation
reference, as performed by the `match event.installation` at the top of
`handle_github_event` (source lines 61-65): both the `Full` and the
`Minimal` variant yield their `id` field, absence yields `none` (which the
handler turns into a 400). -/
def extractInstallationId : Option EventInstallation → Option Nat
  | some (EventInstallation.Full installation) => some installation.id
  | some (EventInstallation.Minimal installation) => some installation.id
  | none => none

/-- Embedding of `handle_github_event` (source lines 57-81).  The
installation authenticator `for_installation` and the external collaborator
`handle_event` are the injected dependencies; the returned `Trace` records
the calls the handler makes to them, in addition to the HTTP response.
The collaborator error is logged via `tracing::error!` with the message
"failed to handle event" before the 500 response is produced. -/
def handle_github_event {α ε : Type}
    (for_installation : Nat → Except ε α)
    (handle_event : α → EventEnvelope → Except String Unit)
    (event : EventEnvelope) : Response × Trace α :=
  match extractInstallationId event.installation with
  | none => (⟨400, "missing installation id"⟩, ⟨[], [], []⟩)
  | some id =>
    match for_installation id with
    | Except.error _ => (⟨500, "unable to authenticate installation"⟩, ⟨[id], [], []⟩)
    | Except.ok client =>
      match handle_event client event with
      | Except.error err =>
        (⟨500, "failed to handle event"⟩,
         ⟨[id], [(client, event)], [(err, "failed to handle event")]⟩)
      | Except.ok _ => (⟨200, "hello world"⟩, ⟨[id], [(client, event)], []⟩)

/-- Configuration consumed by the router (source `GitHubAppConfiguration`):
webhook shared secret bytes, numeric application identifier, signing key
and platform endpoint URI; the key and URI types are abstract. -/
structure GitHubAppConfiguration (U K : Type) where
  webhook_secret : List Nat
  app_identifier : Nat
  app_key : K
  uri : U
deriving DecidableEq, Repr

/-- The state attached to the route (source `ConfigState`): the webhook
secret and the app-level authenticated client. -/
structure ConfigState (α : Type) where
  webhook_secret : List Nat
  client : α
deriving DecidableEq, Repr

/-- A constructed router: its registered route paths and the state shared
with the handler. -/
structure RouterState (α : Type) where
  routes : List String
  state : ConfigState α
deriving DecidableEq, Repr

/-- Observable calls made during router construction: the arguments of
every `authenticate_app` call. -/
structure RouterTrace (U K : Type) where
  authenticateAppCalls : List (U × Nat × K)
deriving DecidableEq, Repr

/-- Embedding of `router` (source lines 19-37): first `authenticate_app`
is called with the configured endpoint, application identifier and key;
on error the `?` operator propagates it and no router is built; on success
the single route `/event_handler` is registered with the authenticated
client and the webhook secret as state.  The `authenticate_app` exchange
itself lives in the `authentication` module and is abstracted as a
function parameter. -/
def router {α ε U K : Type}
    (authenticate_app : U → Nat → K → Except ε α)
    (config : GitHubAppConfiguration U K) :
    Except ε (RouterState α) × RouterTrace U K :=
  match authenticate_app config.uri config.app_identifier config.app_key with
  | Except.error e =>
      (Except.error e, ⟨[(config.uri, config.app_identifier, config.app_key)]⟩)
  | Except.ok client =>
      (Except.ok ⟨["/event_handler"], ⟨config.webhook_secret, client⟩⟩,
       ⟨[(config.uri, config.app_identifier, config.app_key)]⟩)

/-- Modelled from the spec (section 4.1, `SignatureVerifier`): the three
failure kinds of signature verification.  The verifier lives in the
`extractors` module of the repository, which is not part of the provided
source tree. -/
inductive SignatureError where
  | MissingSignature
  | MalformedSignature
  | SignatureMismatch
deriving DecidableEq, Repr

/-- Value of a single hexadecimal digit character (lowercase, as produced
by hex encoding of a MAC), by its code point. -/
def hexDigitVal (c : Char) : Option Nat :=
  if 48 ≤ c.toNat ∧ c.toNat ≤ 57 then some (c.toNat - 48)
  else if 97 ≤ c.toNat ∧ c.toNat ≤ 102 then some (c.toNat - 87)
  else none

/-- Decode a hexadecimal character string into bytes; fails on an odd
length or a non-hex character. -/
def hexDecode : List Char → Option (List Nat)
  | [] => some []
  | [_] => none
  | c1 :: c2 :: rest =>
    match hexDigitVal c1, hexDigitVal c2, hexDecode rest with
    | some h, some l, some r => some ((16 * h + l) :: r)
    | _, _, _ => none

/-- The character of a hexadecimal digit value below 16 (lowercase). -/
def hexDigitChar (n : Nat) : Char :=
  if n < 10 then Char.ofNat (48 + n) else Char.ofNat (87 + n)

/-- Encode bytes as a lowercase hexadecimal character string, as
`hex::encode` does in the tests. -/
def hexEncode : List Nat → List Char
  | [] => []
  | b :: rest => hexDigitChar (b / 16 % 16) :: hexDigitChar (b % 16) :: hexEncode rest

/-- Modelled from the spec (section 4.1): constant-time equality of two MAC
byte strings — every byte pair is xor-ed and the differences are folded
with a bitwise or, with no early exit; the result is compared to zero only
once at the end. -/
def ctEq (a b : List Nat) : Bool :=
  decide (a.length = b.length) &&
    decide ((List.zipWith (fun x y => x ^^^ y) a b).foldl (fun acc d => acc ||| d) 0 = 0)

/-- The characters of the mandatory `sha256=` scheme of the signature
header value. -/
def sigScheme : List Char := ['s', 'h', 'a', '2', '5', '6', '=']

/-- Modelled from the spec (section 4.1, `SignatureVerifier.verify`):
fails with `MissingSignature` when the header is absent, with
`MalformedSignature` when the value is not `sha256=<hex>` with the hex
decoding to exactly 32 bytes, and with `SignatureMismatch` when the
constant-time comparison of the decoded bytes against HMAC-SHA256 of the
raw body under the secret fails.  The HMAC-SHA256 primitive (the orion
library in the source) is abstracted as the parameter `hmac`. -/
def verify (hmac : List Nat → List Nat → List Nat)
    (secret raw_body : List Nat) (header : Option String) :
    Except SignatureError Unit :=
  match header with
  | none => Except.error SignatureError.MissingSignature
  | some h =>
    if h.data.take 7 = sigScheme then
      match hexDecode (h.data.drop 7) with
      | none => Except.error SignatureError.MalformedSignature
      | some sig =>
        if sig.length = 32 then
          if ctEq (hmac secret raw_body) sig then Except.ok ()
          else Except.error SignatureError.SignatureMismatch
        else Except.error SignatureError.MalformedSignature
    else Except.error SignatureError.MalformedSignature

/-- The unique correct signature header value for a body: `sha256=` followed
by the lowercase hex encoding of the body's HMAC-SHA256 under the secret
(spec section 8, `header_for`). -/
def header_for (hmac : List Nat → List Nat → List Nat)
    (secret raw_body : List Nat) : String :=
  String.mk (sigScheme ++ hexEncode (hmac secret raw_body))

/-- An inbound HTTP request to `/event_handler`: the optional
`x-hub-signature-256` header value, the `X-GitHub-Event` header value, and
the exact raw body bytes. -/
structure Request where
  signatureHeader : Option String
  kindHeader : String
  body : List Nat
deriving DecidableEq, Repr

/-- Modelled from the spec (sections 4.4 and 6): the full per-request
pipeline of the `/event_handler` route — the `GitHubEvent` extractor
(repository code outside the provided source tree) verifies the signature
over the exact raw body bytes and parses the body, then hands the envelope
to the embedded `handle_github_event`.  JSON deserialization is abstracted
as the parameter `parse`, returning the optional installation reference and
the opaque remaining content; the envelope's `kind` is the event-kind
header.  A signature failure rejects with 400 (opaque body), a parse
failure with 400 "malformed payload" (spec step 2). -/
def process_request {α ε : Type}
    (hmac : List Nat → List Nat → List Nat)
    (parse : List Nat → Option (Option EventInstallation × List (String × String)))
    (secret : List Nat)
    (for_installation : Nat → Except ε α)
    (handle_event : α → EventEnvelope → Except String Unit)
    (req : Request) : Response × Trace α :=
  match verify hmac secret req.body req.signatureHeader with
  | Except.error _ => (⟨400, ""⟩, ⟨[], [], []⟩)
  | Except.ok _ =>
    match parse req.body with
    | none => (⟨400, "malformed payload"⟩, ⟨[], [], []⟩)
    | some pe =>
      handle_github_event for_installation handle_event ⟨pe.1, req.kindHeader, pe.2⟩

/-! Helper lemmas about the constant-time comparison and hex coding. -/

theorem lor_eq_zero_iff (a b : Nat) : a ||| b = 0 ↔ a = 0 ∧ b = 0 := by
  constructor
  · intro h
    constructor
    · apply Nat.eq_of_testBit_eq
      intro k
      have hk := congrArg (fun x => Nat.testBit x k) h
      simp only [Nat.testBit_lor, Nat.zero_testBit, Bool.or_eq_false_iff] at hk
      simp [hk.1]
    · apply Nat.eq_of_testBit_eq
      intro k
      have hk := congrArg (fun x => Nat.testBit x k) h
      simp only [Nat.testBit_lor, Nat.zero_testBit, Bool.or_eq_false_iff] at hk
      simp [hk.2]
  · rintro ⟨rfl, rfl⟩
    rfl

theorem foldl_lor_eq_zero (l : List Nat) (acc : Nat) :
    List.foldl (fun x d => x ||| d) acc l = 0 ↔ acc = 0 ∧ ∀ x ∈ l, x = 0 := by
  induction l generalizing acc with
  | nil => simp
  | cons y ys ih =>
    simp only [List.foldl_cons, ih, lor_eq_zero_iff, List.mem_cons]
    constructor
    · rintro ⟨⟨ha, hy⟩, hall⟩
      exact ⟨ha, fun x hx => hx.elim (fun hh => hh ▸ hy) (hall x)⟩
    · rintro ⟨ha, hall⟩
      exact ⟨⟨ha, hall y (Or.inl rfl)⟩, fun x hx => hall x (Or.inr hx)⟩

theorem eq_of_zipWith_xor (a : List Nat) : ∀ b : List Nat, a.length = b.length →
    (∀ x ∈ List.zipWith (fun x y => x ^^^ y) a b, x = 0) → a = b := by
  induction a with
  | nil =>
    intro b hlen _
    cases b with
    | nil => rfl
    | cons y ys => simp at hlen
  | cons x xs ih =>
    intro b hlen hall
    cases b with
    | nil => simp at hlen
    | cons y ys =>
      simp only [List.zipWith_cons_cons, List.mem_cons] at hall
      have hxy : x = y := Nat.xor_eq_zero.mp (hall _ (Or.inl rfl))
      have hlen2 : xs.length = ys.length := by simpa using hlen
      rw [hxy, ih ys hlen2 (fun z hz => hall z (Or.inr hz))]

theorem zipWith_xor_self (a : List Nat) :
    ∀ x ∈ List.zipWith (fun x y => x ^^^ y) a a, x = 0 := by
  induction a with
  | nil => simp
  | cons y ys ih =>
    simp only [List.zipWith_cons_cons, List.mem_cons]
    rintro x (rfl | hx)
    · exact Nat.xor_self y
    · exact ih x hx

theorem ctEq_eq_true_iff (a b : List Nat) : ctEq a b = true ↔ a = b := by
  unfold ctEq
  simp only [Bool.and_eq_true, decide_eq_true_eq]
  constructor
  · rintro ⟨hlen, hfold⟩
    exact eq_of_zipWith_xor a b hlen ((foldl_lor_eq_zero _ 0).mp hfold).2
  · rintro rfl
    exact ⟨rfl, (foldl_lor_eq_zero _ 0).mpr ⟨rfl, zipWith_xor_self a⟩⟩

theorem hexDigitVal_lt {c : Char} {n : Nat} (h : hexDigitVal c = some n) : n < 16 := by
  unfold hexDigitVal at h
  split_ifs at h with h1 h2
  · injection h with h
    omega
  · injection h with h
    omega

theorem hexDigitVal_hexDigitChar {n : Nat} (h : n < 16) :
    hexDigitVal (hexDigitChar n) = some n := by
  interval_cases n <;> rfl

theorem hexDigitChar_of_val {c : Char} {n : Nat} (h : hexDigitVal c = some n) :
    c = hexDigitChar n := by
  unfold hexDigitVal at h
  split_ifs at h with h1 h2
  · injection h with h
    subst h
    unfold hexDigitChar
    rw [if_pos (by omega)]
    have e : 48 + (c.toNat - 48) = c.toNat := by omega
    rw [e, Char.ofNat_toNat]
  · injection h with h
    subst h
    unfold hexDigitChar
    rw [if_neg (by omega)]
    have e : 87 + (c.toNat - 87) = c.toNat := by omega
    rw [e, Char.ofNat_toNat]

theorem hexDecode_hexEncode (bs : List Nat) (h : ∀ b ∈ bs, b < 256) :
    hexDecode (hexEncode bs) = some bs := by
  induction bs with
  | nil => rfl
  | cons b rest ih =>
    have hb : b < 256 := h b (List.mem_cons_self b rest)
    have h1 : b / 16 % 16 < 16 := Nat.mod_lt _ (by omega)
    have h2 : b % 16 < 16 := Nat.mod_lt _ (by omega)
    have e : 16 * (b / 16 % 16) + b % 16 = b := by omega
    simp only [hexEncode, hexDecode, hexDigitVal_hexDigitChar h1, hexDigitVal_hexDigitChar h2,
      ih (fun x hx => h x (List.mem_cons_of_mem _ hx)), e]

theorem hexEncode_of_hexDecode : ∀ (cs : List Char) (bs : List Nat),
    hexDecode cs = some bs → cs = hexEncode bs
  | [], bs, h => by
    simp only [hexDecode] at h
    injection h with h
    rw [← h]
    rfl
  | [c], bs, h => by
    simp [hexDecode] at h
  | c1 :: c2 :: rest, bs, h => by
    simp only [hexDecode] at h
    cases h1 : hexDigitVal c1 with
    | none => rw [h1] at h; simp at h
    | some hv =>
      cases h2 : hexDigitVal c2 with
      | none => rw [h1, h2] at h; simp at h
      | some lv =>
        cases h3 : hexDecode rest with
        | none => rw [h1, h2, h3] at h; simp at h
        | some r =>
          rw [h1, h2, h3] at h
          simp only at h
          injection h with h
          subst h
          have hvlt : hv < 16 := hexDigitVal_lt h1
          have lvlt : lv < 16 := hexDigitVal_lt h2
          have d1 : (16 * hv + lv) / 16 % 16 = hv := by omega
          have d2 : (16 * hv + lv) % 16 = lv := by omega
          simp only [hexEncode, d1, d2]
          rw [← hexDigitChar_of_val h1, ← hexDigitChar_of_val h2,
            ← hexEncode_of_hexDecode rest r h3]


theorem take7_append (t : List Char) : (sigScheme ++ t).take 7 = sigScheme := by
  simp [sigScheme]

theorem drop7_append (t : List Char) : (sigScheme ++ t).drop 7 = t := by
  simp [sigScheme]

theorem verify_ok_iff (hmac : List Nat → List Nat → List Nat)
    (secret body : List Nat) (header : Option String)
    (hlen : (hmac secret body).length = 32)
    (hbytes : ∀ b ∈ hmac secret body, b < 256) :
    verify hmac secret body header = Except.ok () ↔
      header = some (header_for hmac secret body) := by
  constructor
  · intro h
    cases header with
    | none => simp [verify] at h
    | some s =>
      simp only [verify] at h
      split_ifs at h with htake
      · cases hdec : hexDecode (s.data.drop 7) with
        | none => rw [hdec] at h; simp at h
        | some sig =>
          rw [hdec] at h
          simp only at h
          split_ifs at h with hslen hct
          · have hsig : hmac secret body = sig := (ctEq_eq_true_iff _ _).mp hct
            have e0 : s.data = s.data.take 7 ++ s.data.drop 7 :=
              (List.take_append_drop 7 s.data).symm
            have e1 : s.data.drop 7 = hexEncode sig := hexEncode_of_hexDecode _ _ hdec
            have e2 : s.data = sigScheme ++ hexEncode (hmac secret body) := by
              rw [e0, htake, e1, hsig]
            have e3 : s = header_for hmac secret body := by
              unfold header_for
              conv_lhs => rw [show s = String.mk s.data from rfl]
              rw [e2]
            rw [e3]
  · rintro rfl
    simp only [verify]
    rw [show (header_for hmac secret body).data
        = sigScheme ++ hexEncode (hmac secret body) from rfl]
    rw [if_pos (take7_append _), drop7_append, hexDecode_hexEncode _ hbytes]
    simp only
    rw [if_pos hlen, if_pos ((ctEq_eq_true_iff _ _).mpr rfl)]


/-- Claim C4: extraction of the InstallationId returns the id field for both
the minimal and the full representation, and both representations with the
same id yield the same extracted InstallationId. -/
theorem installation_id_extraction_agrees (full : Installation)
    (minimal : EventInstallationId) (h : full.id = minimal.id) :
    extractInstallationId (some (EventInstallation.Full full)) = some full.id ∧
    extractInstallationId (some (EventInstallation.Minimal minimal)) = some minimal.id ∧
    extractInstallationId (some (EventInstallation.Full full)) =
      extractInstallationId (some (EventInstallation.Minimal minimal)) := by
  simp [extractInstallationId, h]

/-- Claim C5: when the request reaches the installation-authentication step
and for_installation returns an error, the handler responds 500 "unable to
authenticate installation" and the collaborator is never called (the trace
records the one for_installation call and nothing else). -/
theorem installation_auth_failure_rejected_500 {α ε : Type}
    (fi : Nat → Except ε α) (he : α → EventEnvelope → Except String Unit)
    (event : EventEnvelope) (i : Nat) (e : ε)
    (hid : extractInstallationId event.installation = some i)
    (hfi : fi i = Except.error e) :
    handle_github_event fi he event =
      (⟨500, "unable to authenticate installation"⟩, ⟨[i], [], []⟩) := by
  simp [handle_github_event, hid, hfi]

/-- Claim C6: when the collaborator call handle_event fails, the handler
responds 500 "failed to handle event" and the underlying cause is logged
(the log entry is part of the trace accompanying the response). -/
theorem collaborator_failure_rejected_500_logged {α ε : Type}
    (fi : Nat → Except ε α) (he : α → EventEnvelope → Except String Unit)
    (event : EventEnvelope) (i : Nat) (c : α) (err : String)
    (hid : extractInstallationId event.installation = some i)
    (hfi : fi i = Except.ok c)
    (hhe : he c event = Except.error err) :
    handle_github_event fi he event =
      (⟨500, "failed to handle event"⟩,
       ⟨[i], [(c, event)], [(err, "failed to handle event")]⟩) := by
  simp [handle_github_event, hid, hfi, hhe]

/-- Claim C3: a signature-verified, successfully parsed request whose
envelope has no installation reference is answered 400 "missing
installation id", with neither for_installation nor the collaborator
invoked (empty trace). -/
theorem missing_installation_id_rejected_400 {α ε : Type}
    (hmac : List Nat → List Nat → List Nat)
    (parse : List Nat → Option (Option EventInstallation × List (String × String)))
    (secret : List Nat) (fi : Nat → Except ε α)
    (he : α → EventEnvelope → Except String Unit) (req : Request)
    (payload : List (String × String))
    (hv : verify hmac secret req.body req.signatureHeader = Except.ok ())
    (hp : parse req.body = some (none, payload)) :
    process_request hmac parse secret fi he req =
      (⟨400, "missing installation id"⟩, ⟨[], [], []⟩) := by
  simp [process_request, hv, hp, handle_github_event, extractInstallationId]

/-- Claim C2: a request whose signature header is absent, or differs from
sha256=hex(HMAC-SHA256(secret, raw body)), is answered 400 and is not
forwarded: no for_installation call, no collaborator call, no log entry
(empty trace). -/
theorem bad_signature_rejected_400 {α ε : Type}
    (hmac : List Nat → List Nat → List Nat)
    (parse : List Nat → Option (Option EventInstallation × List (String × String)))
    (secret : List Nat) (fi : Nat → Except ε α)
    (he : α → EventEnvelope → Except String Unit) (req : Request)
    (hlen : (hmac secret req.body).length = 32)
    (hbytes : ∀ b ∈ hmac secret req.body, b < 256)
    (hbad : req.signatureHeader = none ∨
      req.signatureHeader ≠ some (header_for hmac secret req.body)) :
    (process_request hmac parse secret fi he req).1.status = 400 ∧
    (process_request hmac parse secret fi he req).2 = ⟨[], [], []⟩ := by
  have hne : req.signatureHeader ≠ some (header_for hmac secret req.body) := by
    cases hbad with
    | inl h => rw [h]; simp
    | inr h => exact h
  cases hv : verify hmac secret req.body req.signatureHeader with
  | ok u =>
    cases u
    exact absurd ((verify_ok_iff hmac secret req.body _ hlen hbytes).mp hv) hne
  | error e =>
    simp [process_request, hv]

/-- Claim C7: a request with the correct signature over the exact body
bytes, a parseable body containing an installation id, a successful
for_installation exchange and a successful collaborator call is answered
200 OK. -/
theorem happy_path_accepted_200 {α ε : Type}
    (hmac : List Nat → List Nat → List Nat)
    (parse : List Nat → Option (Option EventInstallation × List (String × String)))
    (secret : List Nat) (fi : Nat → Except ε α)
    (he : α → EventEnvelope → Except String Unit) (req : Request)
    (inst : EventInstallation) (payload : List (String × String)) (i : Nat) (c : α)
    (hlen : (hmac secret req.body).length = 32)
    (hbytes : ∀ b ∈ hmac secret req.body, b < 256)
    (hsig : req.signatureHeader = some (header_for hmac secret req.body))
    (hp : parse req.body = some (some inst, payload))
    (hid : extractInstallationId (some inst) = some i)
    (hfi : fi i = Except.ok c)
    (hhe : he c ⟨some inst, req.kindHeader, payload⟩ = Except.ok ()) :
    (process_request hmac parse secret fi he req).1 = ⟨200, "hello world"⟩ := by
  have hv : verify hmac secret req.body req.signatureHeader = Except.ok () :=
    (verify_ok_iff hmac secret req.body _ hlen hbytes).mpr hsig
  simp [process_request, hv, hp, handle_github_event, hid, hfi, hhe]

/-- Claim C10: every 200 response of the pipeline carries exactly the fixed
body "hello world", independent of the event content. -/
theorem success_body_fixed_hello_world {α ε : Type}
    (hmac : List Nat → List Nat → List Nat)
    (parse : List Nat → Option (Option EventInstallation × List (String × String)))
    (secret : List Nat) (fi : Nat → Except ε α)
    (he : α → EventEnvelope → Except String Unit) (req : Request)
    (h : (process_request hmac parse secret fi he req).1.status = 200) :
    (process_request hmac parse secret fi he req).1 = ⟨200, "hello world"⟩ := by
  cases hv : verify hmac secret req.body req.signatureHeader with
  | error e => simp [process_request, hv] at h
  | ok u =>
    cases u
    cases hp : parse req.body with
    | none => simp [process_request, hv, hp] at h
    | some pe =>
      cases hid : extractInstallationId pe.1 with
      | none => simp [process_request, hv, hp, handle_github_event, hid] at h
      | some i =>
        cases hfi : fi i with
        | error e => simp [process_request, hv, hp, handle_github_event, hid, hfi] at h
        | ok c =>
          cases hhe : he c ⟨pe.1, req.kindHeader, pe.2⟩ with
          | error err =>
            simp [process_request, hv, hp, handle_github_event, hid, hfi, hhe] at h
          | ok u2 =>
            cases u2
            simp [process_request, hv, hp, handle_github_event, hid, hfi, hhe]

/-- Claim C8: router construction calls authenticate_app exactly once with
the configured endpoint, identifier and key; on failure it propagates the
error and builds no router (so no route exists); on success the single
registered route is /event_handler and its state holds exactly the client
authenticate_app produced, together with the webhook secret. -/
theorem router_requires_app_authentication {α ε U K : Type}
    (authenticate_app : U → Nat → K → Except ε α)
    (config : GitHubAppConfiguration U K) :
    (∀ e, authenticate_app config.uri config.app_identifier config.app_key =
        Except.error e → (router authenticate_app config).1 = Except.error e) ∧
    (∀ st, (router authenticate_app config).1 = Except.ok st →
        st.routes = ["/event_handler"] ∧
        authenticate_app config.uri config.app_identifier config.app_key =
          Except.ok st.state.client ∧
        st.state.webhook_secret = config.webhook_secret) ∧
    (router authenticate_app config).2.authenticateAppCalls =
      [(config.uri, config.app_identifier, config.app_key)] := by
  refine ⟨?_, ?_, ?_⟩
  · intro e he
    simp [router, he]
  · intro st hst
    cases ha : authenticate_app config.uri config.app_identifier config.app_key with
    | error e => simp [router, ha] at hst
    | ok cl =>
      simp only [router, ha] at hst
      injection hst with hst
      rw [← hst]
      simp [ha]
  · cases ha : authenticate_app config.uri config.app_identifier config.app_key <;>
      simp [router, ha]

/-- Claim C1: the collaborator handle_event is invoked only after signature
verification, body parsing, installation-id extraction and a successful
for_installation exchange, it is invoked at most once, and the client it
receives is exactly the one that successful for_installation call
produced; on any earlier failure the collaborator is never invoked. -/
theorem collaborator_gated_by_full_success {α ε : Type}
    (hmac : List Nat → List Nat → List Nat)
    (parse : List Nat → Option (Option EventInstallation × List (String × String)))
    (secret : List Nat) (fi : Nat → Except ε α)
    (he : α → EventEnvelope → Except String Unit) (req : Request)
    (c : α) (env : EventEnvelope) (rest : List (α × EventEnvelope))
    (h : (process_request hmac parse secret fi he req).2.handleEventCalls
        = (c, env) :: rest) :
    rest = [] ∧
    verify hmac secret req.body req.signatureHeader = Except.ok () ∧
    (∃ pe, parse req.body = some pe ∧ env = ⟨pe.1, req.kindHeader, pe.2⟩) ∧
    (∃ i, extractInstallationId env.installation = some i ∧ fi i = Except.ok c) := by
  cases hv : verify hmac secret req.body req.signatureHeader with
  | error e => simp [process_request, hv] at h
  | ok u =>
    cases u
    cases hp : parse req.body with
    | none => simp [process_request, hv, hp] at h
    | some pe =>
      cases hid : extractInstallationId pe.1 with
      | none => simp [process_request, hv, hp, handle_github_event, hid] at h
      | some i =>
        cases hfi : fi i with
        | error e => simp [process_request, hv, hp, handle_github_event, hid, hfi] at h
        | ok cl =>
          cases hhe : he cl ⟨pe.1, req.kindHeader, pe.2⟩ with
          | error err =>
            simp only [process_request, hv, hp, handle_github_event, hid, hfi, hhe] at h
            simp only [List.cons.injEq, Prod.mk.injEq] at h
            obtain ⟨⟨hcl, henv⟩, hrest⟩ := h
            subst hcl
            subst hrest
            refine ⟨rfl, rfl, ⟨pe, rfl, henv.symm⟩, ⟨i, ?_, hfi⟩⟩
            rw [← henv]
            exact hid
          | ok u2 =>
            cases u2
            simp only [process_request, hv, hp, handle_github_event, hid, hfi, hhe] at h
            simp only [List.cons.injEq, Prod.mk.injEq] at h
            obtain ⟨⟨hcl, henv⟩, hrest⟩ := h
            subst hcl
            subst hrest
            refine ⟨rfl, rfl, ⟨pe, rfl, henv.symm⟩, ⟨i, ?_, hfi⟩⟩
            rw [← henv]
            exact hid


/-! Concrete test doubles used by the witness theorems below, mirroring the
determinized setup of the source tests (secret `[0u8;32]`, a no-op
authenticator and collaborator, and the happy-path JSON body). -/

/-- Witness HMAC double: the all-zero 32-byte MAC for every input. -/
def demoMac (_secret _body : List Nat) : List Nat := List.replicate 32 0

/-- Witness webhook secret: 32 zero bytes, as in the source tests. -/
def demoSecret : List Nat := List.replicate 32 0

/-- Witness raw body bytes. -/
def demoBody : List Nat := [123, 125]

/-- Witness installation reference in the minimal representation, as in the
happy-path test body. -/
def demoInstallation : EventInstallation := EventInstallation.Minimal ⟨1, "dGVzdA=="⟩

/-- Witness parser: every body parses to the happy-path envelope content. -/
def demoParse (_body : List Nat) :
    Option (Option EventInstallation × List (String × String)) :=
  some (some demoInstallation, [("hello", "world")])

/-- Witness parser for a body that omits the installation reference. -/
def demoParseNoInstallation (_body : List Nat) :
    Option (Option EventInstallation × List (String × String)) :=
  some (none, [("hello", "world")])

/-- Witness envelope produced by `demoParse` under the demo request. -/
def demoEnv : EventEnvelope :=
  ⟨some demoInstallation, "pull_request.*", [("hello", "world")]⟩

/-- Witness installation authenticator: always succeeds with client 7. -/
def demoFi (_i : Nat) : Except String Nat := Except.ok 7

/-- Witness installation authenticator that always fails. -/
def demoFiErr (_i : Nat) : Except String Nat := Except.error "simulated auth failure"

/-- Witness collaborator: always succeeds. -/
def demoHe (_c : Nat) (_e : EventEnvelope) : Except String Unit := Except.ok ()

/-- Witness collaborator that always fails. -/
def demoHeErr (_c : Nat) (_e : EventEnvelope) : Except String Unit :=
  Except.error "simulated collaborator failure"

/-- Witness request carrying the correct signature header for its body. -/
def demoReq : Request :=
  ⟨some (header_for demoMac demoSecret demoBody), "pull_request.*", demoBody⟩

/-- Witness request with no signature header. -/
def demoReqNoSig : Request := ⟨none, "pull_request.*", demoBody⟩

/-- Witness for the C1 theorem at an all-success instantiation. -/
theorem collaborator_gated_by_full_success_witness :
    (process_request demoMac demoParse demoSecret demoFi demoHe demoReq).2.handleEventCalls
      = (7, demoEnv) :: ([] : List (Nat × EventEnvelope)) ∧
    (([] : List (Nat × EventEnvelope)) = [] ∧
     verify demoMac demoSecret demoReq.body demoReq.signatureHeader = Except.ok () ∧
     (∃ pe, demoParse demoReq.body = some pe ∧ demoEnv = ⟨pe.1, demoReq.kindHeader, pe.2⟩) ∧
     (∃ i, extractInstallationId demoEnv.installation = some i ∧ demoFi i = Except.ok 7)) :=
  ⟨rfl, collaborator_gated_by_full_success demoMac demoParse demoSecret demoFi demoHe
    demoReq 7 demoEnv [] rfl⟩

/-- Witness for the C2 theorem at the missing-header instantiation. -/
theorem bad_signature_rejected_400_witness :
    (demoMac demoSecret demoReqNoSig.body).length = 32 ∧
    (∀ b ∈ demoMac demoSecret demoReqNoSig.body, b < 256) ∧
    (demoReqNoSig.signatureHeader = none ∨
      demoReqNoSig.signatureHeader ≠
        some (header_for demoMac demoSecret demoReqNoSig.body)) ∧
    ((process_request demoMac demoParse demoSecret demoFi demoHe demoReqNoSig).1.status
        = 400 ∧
     (process_request demoMac demoParse demoSecret demoFi demoHe demoReqNoSig).2
        = ⟨[], [], []⟩) :=
  ⟨by decide, by decide, Or.inl rfl,
   bad_signature_rejected_400 demoMac demoParse demoSecret demoFi demoHe demoReqNoSig
     (by decide) (by decide) (Or.inl rfl)⟩

/-- Witness for the C3 theorem: verified signature, parsed body without an
installation reference. -/
theorem missing_installation_id_rejected_400_witness :
    verify demoMac demoSecret demoReq.body demoReq.signatureHeader = Except.ok () ∧
    demoParseNoInstallation demoReq.body = some (none, [("hello", "world")]) ∧
    process_request demoMac demoParseNoInstallation demoSecret demoFi demoHe demoReq =
      (⟨400, "missing installation id"⟩, ⟨[], [], []⟩) :=
  ⟨rfl, rfl,
   missing_installation_id_rejected_400 demoMac demoParseNoInstallation demoSecret
     demoFi demoHe demoReq [("hello", "world")] rfl rfl⟩

/-- Witness for the C4 theorem: a full and a minimal representation with the
same id. -/
theorem installation_id_extraction_agrees_witness :
    (Installation.mk 1 "full-node" [("account", "octo")]).id
      = (EventInstallationId.mk 1 "min-node").id ∧
    (extractInstallationId
        (some (EventInstallation.Full (Installation.mk 1 "full-node" [("account", "octo")])))
      = some (Installation.mk 1 "full-node" [("account", "octo")]).id ∧
     extractInstallationId (some (EventInstallation.Minimal (EventInstallationId.mk 1 "min-node")))
      = some (EventInstallationId.mk 1 "min-node").id ∧
     extractInstallationId
        (some (EventInstallation.Full (Installation.mk 1 "full-node" [("account", "octo")])))
      = extractInstallationId
          (some (EventInstallation.Minimal (EventInstallationId.mk 1 "min-node")))) :=
  ⟨rfl, installation_id_extraction_agrees (Installation.mk 1 "full-node" [("account", "octo")])
    (EventInstallationId.mk 1 "min-node") rfl⟩

/-- Witness for the C5 theorem: the authenticator double that always fails. -/
theorem installation_auth_failure_rejected_500_witness :
    extractInstallationId demoEnv.installation = some 1 ∧
    demoFiErr 1 = Except.error "simulated auth failure" ∧
    handle_github_event demoFiErr demoHe demoEnv =
      (⟨500, "unable to authenticate installation"⟩, ⟨[1], [], []⟩) :=
  ⟨rfl, rfl,
   installation_auth_failure_rejected_500 demoFiErr demoHe demoEnv 1
     "simulated auth failure" rfl rfl⟩

/-- Witness for the C6 theorem: the collaborator double that always fails. -/
theorem collaborator_failure_rejected_500_logged_witness :
    extractInstallationId demoEnv.installation = some 1 ∧
    demoFi 1 = Except.ok 7 ∧
    demoHeErr 7 demoEnv = Except.error "simulated collaborator failure" ∧
    handle_github_event demoFi demoHeErr demoEnv =
      (⟨500, "failed to handle event"⟩,
       ⟨[1], [(7, demoEnv)],
        [("simulated collaborator failure", "failed to handle event")]⟩) :=
  ⟨rfl, rfl, rfl,
   collaborator_failure_rejected_500_logged demoFi demoHeErr demoEnv 1 7
     "simulated collaborator failure" rfl rfl rfl⟩

/-- Witness for the C7 theorem at the all-success instantiation. -/
theorem happy_path_accepted_200_witness :
    (demoMac demoSecret demoReq.body).length = 32 ∧
    (∀ b ∈ demoMac demoSecret demoReq.body, b < 256) ∧
    demoReq.signatureHeader = some (header_for demoMac demoSecret demoReq.body) ∧
    demoParse demoReq.body = some (some demoInstallation, [("hello", "world")]) ∧
    extractInstallationId (some demoInstallation) = some 1 ∧
    demoFi 1 = Except.ok 7 ∧
    demoHe 7 ⟨some demoInstallation, demoReq.kindHeader, [("hello", "world")]⟩
      = Except.ok () ∧
    (process_request demoMac demoParse demoSecret demoFi demoHe demoReq).1
      = ⟨200, "hello world"⟩ :=
  ⟨by decide, by decide, rfl, rfl, rfl, rfl, rfl,
   happy_path_accepted_200 demoMac demoParse demoSecret demoFi demoHe demoReq
     demoInstallation [("hello", "world")] 1 7 (by decide) (by decide) rfl rfl rfl rfl rfl⟩

/-- Witness for the C10 theorem at the all-success instantiation. -/
theorem success_body_fixed_hello_world_witness :
    (process_request demoMac demoParse demoSecret demoFi demoHe demoReq).1.status = 200 ∧
    (process_request demoMac demoParse demoSecret demoFi demoHe demoReq).1
      = ⟨200, "hello world"⟩ :=
  ⟨rfl, success_body_fixed_hello_world demoMac demoParse demoSecret demoFi demoHe demoReq rfl⟩

end WildGitYonder
